import Mathlib

/-
  Verification development for the LLMManager class of src/openai_chat.py.

  The Python class is shallowly embedded: messages become an inductive data
  model, the token estimator and history-truncation loop become Lean
  functions, and the chat entry points become functions from an explicit
  engine state to an outcome describing what the code would do up to the
  point where it hands a request to the external network client.  The
  tiktoken encoder is external to the repository, so it is abstracted as a
  parameter of type String to Nat; the availability of each vendor SDK is
  abstracted as a parameter of type String to Bool.
-/

namespace LLMChat

/-- A content block of a chat message: either a text block
    (a Python dict with keys type and text) or an image block
    (a dict with keys type and image_url, the latter holding url and
    detail). -/
inductive ContentBlock where
  | text (s : String)
  | image (url : String) (detail : String)
deriving DecidableEq

/-- Message content is either a plain string or a list of content blocks,
    mirroring the two shapes the Python code stores under the content
    key. -/
inductive MsgContent where
  | str (s : String)
  | blocks (bs : List ContentBlock)
deriving DecidableEq

/-- A chat message: a Python dict with keys role and content. -/
structure Msg where
  role : String
  content : MsgContent
deriving DecidableEq

/-- Python str of a content block (a dict literal with single-quoted
    keys and values), used by the rough token estimate for the Claude and
    Gemini providers, which calls len on str of the message.  Escapes and
    non-string values are not needed for the messages this program
    builds. -/
def pyBlockRepr : ContentBlock → String
  | .text s =>
      "\x7b\x27type\x27: \x27text\x27, \x27text\x27: \x27" ++ s ++ "\x27\x7d"
  | .image url detail =>
      "\x7b\x27type\x27: \x27image_url\x27, \x27image_url\x27: \x7b\x27url\x27: \x27"
        ++ url ++ "\x27, \x27detail\x27: \x27" ++ detail ++ "\x27\x7d\x7d"

/-- Python str of a message content value: repr of a string is the string
    in single quotes, repr of a block list is the bracketed comma-joined
    reprs of the blocks. -/
def pyContentRepr : MsgContent → String
  | .str s => "\x27" ++ s ++ "\x27"
  | .blocks bs => "[" ++ String.intercalate ", " (bs.map pyBlockRepr) ++ "]"

/-- Python str of a message dict. -/
def pyMsgRepr (m : Msg) : String :=
  "\x7b\x27role\x27: \x27" ++ m.role ++ "\x27, \x27content\x27: "
    ++ pyContentRepr m.content ++ "\x7d"

/-- Tokens charged for one content block by num_tokens_from_messages for
    the openai provider: the inner loop over the block dict adds the
    encoding length of the value of the type key, the encoding length of
    the value of the text key when present, and a flat 1105 for the
    image_url key. -/
def blockTokens (enc : String → Nat) : ContentBlock → Nat
  | .text s => enc "text" + enc s
  | .image _ _ => enc "image_url" + 1105

/-- Tokens charged for a message content value by num_tokens_from_messages
    for the openai provider. -/
def contentTokens (enc : String → Nat) : MsgContent → Nat
  | .str s => enc s
  | .blocks bs => (bs.map (blockTokens enc)).sum

/-- Tokens charged for one message: 4 overhead plus the encoding length of
    the role value plus the content tokens. -/
def msgTokens (enc : String → Nat) (m : Msg) : Nat :=
  4 + enc m.role + contentTokens enc m.content

/-- LLMManager.num_tokens_from_messages, lines 75 to 106: for the openai
    provider, the exact tiktoken-based loop (the encoder abstracted as
    enc); for every other provider, the rough estimate summing
    len of str of each message, integer-divided by 4. -/
def num_tokens_from_messages (enc : String → Nat) (provider : String)
    (msgs : List Msg) : Nat :=
  if provider = "openai" then
    msgs.foldl (fun acc m => acc + msgTokens enc m) 0 + 2
  else
    (msgs.map (fun m => (pyMsgRepr m).length / 4)).sum

/-- The Python exception raised by _default_model_for_provider and
    _init_client for an unrecognized provider (ValueError, named
    UnknownProviderError by the specification). -/
inductive PyErr where
  | unknownProvider
deriving DecidableEq

/-- The mutable state of an LLMManager instance that the claims are about:
    the provider and model fields, whether the backing client was
    established (client is not None), and the chat_history list.  The
    lazily cached tiktoken encoder and the backup path are external and
    not modelled. -/
structure EngineState where
  provider : String
  model : String
  clientOk : Bool
  chat_history : List Msg
deriving DecidableEq

/-- LLMManager._default_model_for_provider, lines 29 to 37: a fixed lookup
    raising ValueError (modelled as none) for an unknown provider. -/
def default_model_for_provider (provider : String) : Option String :=
  if provider = "openai" then some "gpt-4o"
  else if provider = "claude" then some "claude-3-opus-20240229"
  else if provider = "gemini" then some "gemini-1.5-pro"
  else none

/-- LLMManager._init_client, lines 39 to 63: for a recognized provider the
    client is re-created (success decided by the external avail oracle,
    which stands for the vendor SDK import succeeding); for any other
    provider a ValueError is raised and the state is returned as it stood
    at the raise. -/
def init_client (avail : String → Bool) (st : EngineState) :
    EngineState × Option PyErr :=
  if st.provider = "openai" ∨ st.provider = "claude" ∨ st.provider = "gemini"
  then ({ st with clientOk := avail st.provider }, none)
  else (st, some .unknownProvider)

/-- LLMManager.set_provider, lines 65 to 68.  Python assigns
    self.provider first, then evaluates model or default (the or
    short-circuits, so a truthy explicit model skips the default lookup
    and its possible ValueError), then re-runs _init_client.  The result
    pairs the state as it stands when the call returns or raises with the
    raised error, if any. -/
def set_provider (avail : String → Bool) (st : EngineState) (provider : String)
    (model : Option String) : EngineState × Option PyErr :=
  let st1 := { st with provider := provider }
  match model with
  | some m =>
      if m = "" then
        match default_model_for_provider provider with
        | some d => init_client avail { st1 with model := d }
        | none => (st1, some .unknownProvider)
      else init_client avail { st1 with model := m }
  | none =>
      match default_model_for_provider provider with
      | some d => init_client avail { st1 with model := d }
      | none => (st1, some .unknownProvider)

/-- LLMManager.__init__, lines 10 to 27, without a chat-history backup
    file (file loading is external): provider and model are set (the model
    lookup may raise), the client is initialized (raising for an unknown
    provider), and the history starts as the one-element list holding the
    system prompt when one is given.  A raise during construction means no
    instance is produced, hence the Except. -/
def mkLLMManager (avail : String → Bool) (system_prompt : Option Msg)
    (provider : String) (model : Option String) : Except PyErr EngineState :=
  let mdl? := match model with
    | some m => if m = "" then default_model_for_provider provider else some m
    | none => default_model_for_provider provider
  match mdl? with
  | none => .error .unknownProvider
  | some mdl =>
      if provider = "openai" ∨ provider = "claude" ∨ provider = "gemini" then
        .ok { provider := provider, model := mdl, clientOk := avail provider,
              chat_history :=
                match system_prompt with | some sp => [sp] | none => [] }
      else .error .unknownProvider

/-- What LLMManager.chat does up to the point of handing a request to the
    network client: the early returns for an empty prompt, a missing
    client, and (openai only) an oversized question, or the request that
    is dispatched. -/
inductive ChatOutcome where
  | noInput
  | clientUnavailable
  | promptTooLarge
  | dispatchedOpenAI (msgs : List Msg)
  | dispatchedClaude (msgs : List Msg)
  | dispatchedGemini (prompt : String)
  | unknownProvider
deriving DecidableEq

/-- LLMManager.chat, lines 108 to 149, modelled up to dispatch.  The
    method never assigns self.chat_history, so each branch returns the
    state unchanged.  Only the openai branch checks
    num_tokens_from_messages of the single-message question against
    128000; the claude and gemini branches build their request with no
    size check. -/
def chat (enc : String → Nat) (st : EngineState) (prompt : String) :
    EngineState × ChatOutcome :=
  if prompt = "" then (st, .noInput)
  else if st.provider = "openai" then
    if st.clientOk = false then (st, .clientUnavailable)
    else if 128000 <
        num_tokens_from_messages enc st.provider [⟨"user", .str prompt⟩] then
      (st, .promptTooLarge)
    else (st, .dispatchedOpenAI [⟨"user", .str prompt⟩])
  else if st.provider = "claude" then
    if st.clientOk = false then (st, .clientUnavailable)
    else (st, .dispatchedClaude [⟨"user", .str prompt⟩])
  else if st.provider = "gemini" then
    if st.clientOk = false then (st, .clientUnavailable)
    else (st, .dispatchedGemini prompt)
  else (st, .unknownProvider)

/-- Whether a content-block dict has a text key (the guard of the list
    comprehension in _claude_history_format). -/
def ContentBlock.hasTextKey : ContentBlock → Bool
  | .text _ => true
  | .image _ _ => false

/-- The value under the text key of a content-block dict.  Only ever
    applied to blocks passing hasTextKey; the value for an image block is
    arbitrary. -/
def ContentBlock.textVal : ContentBlock → String
  | .text s => s
  | .image _ _ => ""

/-- A Claude-format message: role plus an already-flattened text
    content. -/
structure ClaudeMsg where
  role : String
  content : String
deriving DecidableEq

/-- The per-message content flattening of _claude_history_format: for a
    block list, newline-join the text values of the blocks that have a
    text key; a string content passes through. -/
def claude_text : MsgContent → String
  | .blocks bs =>
      String.intercalate "\n"
        ((bs.filter ContentBlock.hasTextKey).map ContentBlock.textVal)
  | .str s => s

/-- LLMManager._claude_history_format, lines 278 to 287. -/
def claude_history_format (hist : List Msg) : List ClaudeMsg :=
  hist.map (fun m => ⟨m.role, claude_text m.content⟩)

/-- Modelled from the spec words for the Claude-style adapter, for
    comparison with claude_history_format: flatten each message by
    joining all Text block contents with newlines (image blocks
    contribute nothing). -/
def claudeSpecFlatten (hist : List Msg) : List ClaudeMsg :=
  hist.map (fun m =>
    ⟨m.role,
     match m.content with
     | .str s => s
     | .blocks bs =>
         String.intercalate "\n"
           (bs.filterMap (fun b =>
             match b with
             | .text s => some s
             | .image _ _ => none))⟩)

/-- The helper get_gemini_text inside chat_with_history, lines 262 to 265:
    if the content is a nonempty block list whose first block has a text
    key, that text; otherwise Python str of the content (for a plain
    string content that is the string itself). -/
def get_gemini_text (m : Msg) : String :=
  match m.content with
  | .blocks (.text s :: _) => s
  | .blocks bs => pyContentRepr (.blocks bs)
  | .str s => s

/-- The prompt synthesized for the gemini provider in chat_with_history,
    line 266: the newline-join of get_gemini_text over the messages whose
    role is user, in order. -/
def gemini_history_text (hist : List Msg) : String :=
  String.intercalate "\n"
    ((hist.filter (fun m => m.role == "user")).map get_gemini_text)

/-- The IndexError raised by chat_history.pop(1) when the list has fewer
    than two elements; the specification names this condition
    HistoryExhaustedError. -/
inductive HistErr where
  | historyExhausted
deriving DecidableEq

/-- The truncation loop of chat_with_history, lines 229 to 232: while the
    estimate of the whole history exceeds 128000, pop the element at
    index 1; pop(1) on a list shorter than two elements raises
    IndexError. -/
def truncateLoop (est : List Msg → Nat) (h : List Msg) :
    Except HistErr (List Msg) :=
  if 128000 < est h then
    match h with
    | m0 :: _ :: t => truncateLoop est (m0 :: t)
    | _ => .error .historyExhausted
  else .ok h
termination_by h.length
decreasing_by simp

/-- What chat_with_history does up to the point of handing a request to
    the network client. -/
inductive HistOutcome where
  | historyExhausted
  | clientUnavailable
  | unknownProvider
  | openaiReq (hist : List Msg)
  | claudeReq (req : List ClaudeMsg)
  | geminiReq (prompt : String)
deriving DecidableEq

/-- LLMManager.chat_with_history, lines 198 to 271, modelled up to
    dispatch.  A non-empty prompt appends a new user message whose content
    is a text block followed by an optional image block (the base64
    encoding of a local image is external; imageUrl is the url the code
    would use); then the truncation loop runs with the provider-aware
    estimator; then the provider branch checks the client and builds the
    provider request over the entire remaining history. -/
def chat_with_history (enc : String → Nat) (st : EngineState)
    (prompt : String) (imageUrl : Option String) : HistOutcome :=
  let hist1 :=
    if prompt = "" then st.chat_history
    else
      let content := match imageUrl with
        | some u => [ContentBlock.text prompt, ContentBlock.image u "high"]
        | none => [ContentBlock.text prompt]
      st.chat_history ++ [⟨"user", .blocks content⟩]
  match truncateLoop (num_tokens_from_messages enc st.provider) hist1 with
  | .error _ => .historyExhausted
  | .ok hist2 =>
      if st.provider = "openai" then
        if st.clientOk = false then .clientUnavailable
        else .openaiReq hist2
      else if st.provider = "claude" then
        if st.clientOk = false then .clientUnavailable
        else .claudeReq (claude_history_format hist2)
      else if st.provider = "gemini" then
        if st.clientOk = false then .clientUnavailable
        else .geminiReq (gemini_history_text hist2)
      else .unknownProvider

theorem truncateLoop_ok_shape (est : List Msg → Nat) :
    ∀ (l out : List Msg), truncateLoop est l = .ok out →
      out.head? = l.head? ∧ List.IsSuffix out.tail l.tail := by
  intro l
  refine truncateLoop.induct est
      (fun l => ∀ out, truncateLoop est l = .ok out →
        out.head? = l.head? ∧ List.IsSuffix out.tail l.tail) ?_ ?_ ?_ l
  · intro m0 b t hlt ih out hok
    rw [truncateLoop.eq_def, if_pos hlt] at hok
    obtain ⟨h1, h2⟩ := ih out hok
    exact ⟨by simpa using h1, h2.trans (List.suffix_cons b t)⟩
  · intro x hlt hnc out hok
    rcases x with _ | ⟨a, _ | ⟨b, t⟩⟩
    · rw [truncateLoop.eq_def, if_pos hlt] at hok
      simp at hok
    · rw [truncateLoop.eq_def, if_pos hlt] at hok
      simp at hok
    · exact absurd rfl (hnc a b t)
  · intro x hnlt out hok
    rw [truncateLoop.eq_def, if_neg hnlt] at hok
    simp only [Except.ok.injEq] at hok
    subst hok
    exact ⟨rfl, List.suffix_refl _⟩

/-- C1: the truncation loop of chat_with_history never removes the element
    at index 0; it only removes elements at index 1, so whenever the loop
    returns a truncated history, its first element is the original first
    element unchanged and the rest is a suffix of the original tail. -/
theorem truncate_never_removes_first (est : List Msg → Nat) (m0 : Msg)
    (rest out : List Msg) (h : truncateLoop est (m0 :: rest) = .ok out) :
    out.head? = some m0 ∧ List.IsSuffix out.tail rest := by
  obtain ⟨h1, h2⟩ := truncateLoop_ok_shape est (m0 :: rest) out h
  exact ⟨by simpa using h1, by simpa using h2⟩

/-- Witness for C1 at a concrete pinned message and estimator. -/
theorem truncate_never_removes_first_witness :
    [Msg.mk "system" (.str "S")].head? = some (Msg.mk "system" (.str "S")) ∧
      List.IsSuffix [Msg.mk "system" (.str "S")].tail [] :=
  truncate_never_removes_first (fun _ => 0) (Msg.mk "system" (.str "S")) [] _
    (by simp [truncateLoop])

/-- C2: with a history holding a single message whose estimated token
    count alone exceeds the 128000 budget, chat_with_history ends in the
    exhaustion error (the IndexError from pop(1), named
    HistoryExhaustedError by the specification) rather than looping. -/
theorem single_message_history_exhausted (enc : String → Nat)
    (st : EngineState) (m : Msg) (hh : st.chat_history = [m])
    (hbig : 128000 < num_tokens_from_messages enc st.provider [m]) :
    chat_with_history enc st "" none = .historyExhausted := by
  simp only [chat_with_history, hh, if_pos, reduceIte]
  rw [truncateLoop.eq_def, if_pos hbig]

/-- Witness for C2: a concrete single-message history over the budget. -/
theorem single_message_history_exhausted_witness :
    chat_with_history (fun _ => 200000)
        (EngineState.mk "openai" "gpt-4o" true [Msg.mk "user" (.str "hi")])
        "" none = .historyExhausted :=
  single_message_history_exhausted (fun _ => 200000) _ (Msg.mk "user" (.str "hi"))
    rfl (by decide)

theorem foldl_add_eq_sum (f : Msg → Nat) :
    ∀ (l : List Msg) (a : Nat),
      l.foldl (fun acc m => acc + f m) a = a + (l.map f).sum := by
  intro l
  induction l with
  | nil => intro a; simp
  | cons x t ih =>
      intro a
      simp only [List.foldl_cons, List.map_cons, List.sum_cons, ih]
      omega

/-- Modelled from the claim words for C3: per message, 4 overhead tokens
    plus the encoding length of the role plus the encoding length of the
    text content, with each image block a flat 1105; plus 2 for the
    sequence.  Written for comparison with num_tokens_from_messages. -/
def claimC3Estimate (enc : String → Nat) (msgs : List Msg) : Nat :=
  (msgs.map (fun m =>
    4 + enc m.role +
      (match m.content with
       | .str s => enc s
       | .blocks bs =>
           (bs.map (fun b =>
             match b with
             | ContentBlock.text s => enc s
             | ContentBlock.image _ _ => 1105)).sum))).sum + 2

/-- The formula of C3 amended as the code forces: for block-list content
    every block additionally contributes the encoding length of its type
    tag, the string text for a text block and image_url for an image
    block. -/
def amendedC3Estimate (enc : String → Nat) (msgs : List Msg) : Nat :=
  (msgs.map (fun m =>
    4 + enc m.role +
      (match m.content with
       | .str s => enc s
       | .blocks bs =>
           (bs.map (fun b =>
             match b with
             | ContentBlock.text s => enc "text" + enc s
             | ContentBlock.image _ _ => enc "image_url" + 1105)).sum))).sum + 2

/-- C3 counterexample: with the encoding length instantiated to string
    length, a single message holding one image block is charged 1124
    tokens by the code (the type tag image_url is also encoded) while the
    claim formula yields 1115; any encoding that gives the type tags a
    nonzero length separates the two. -/
theorem openai_estimate_claim_counterexample :
    num_tokens_from_messages String.length "openai"
        [Msg.mk "user" (.blocks [.image "u" "high"])] = 1124 ∧
      claimC3Estimate String.length
        [Msg.mk "user" (.blocks [.image "u" "high"])] = 1115 := by
  constructor <;> rfl

/-- C3 amended: the openai estimate equals the claim formula extended
    with the per-block type-tag encoding lengths. -/
theorem openai_estimate_formula (enc : String → Nat) (msgs : List Msg) :
    num_tokens_from_messages enc "openai" msgs = amendedC3Estimate enc msgs := by
  simp only [num_tokens_from_messages, reduceIte]
  rw [foldl_add_eq_sum (msgTokens enc) msgs 0]
  simp only [amendedC3Estimate, Nat.zero_add, Nat.add_left_cancel_iff]
  have hmsg : ∀ m : Msg, msgTokens enc m =
      4 + enc m.role +
        (match m.content with
         | .str s => enc s
         | .blocks bs =>
             (bs.map (fun b =>
               match b with
               | ContentBlock.text s => enc "text" + enc s
               | ContentBlock.image _ _ => enc "image_url" + 1105)).sum) := by
    intro m
    cases hc : m.content with
    | str s => simp [msgTokens, contentTokens, hc]
    | blocks bs =>
        simp only [msgTokens, contentTokens, hc]
        congr 1
  rw [List.map_congr_left (fun m _ => hmsg m)]

/-- C4: the openai-style estimate never decreases when a message is
    appended to the sequence; it is a function of the sequence, hence
    deterministic. -/
theorem openai_estimate_monotone_append (enc : String → Nat) (H : List Msg)
    (m : Msg) :
    num_tokens_from_messages enc "openai" H ≤
      num_tokens_from_messages enc "openai" (H ++ [m]) := by
  simp only [num_tokens_from_messages, reduceIte]
  rw [foldl_add_eq_sum, foldl_add_eq_sum]
  simp only [List.map_append, List.sum_append, List.map_cons, List.map_nil,
    List.sum_cons, List.sum_nil]
  omega

/-- C5: the gemini prompt synthesis drops every message whose role is not
    user, wherever it sits in the history, and on the spec scenario
    (user A, assistant B, user C) it builds the prompt A newline C. -/
theorem gemini_prompt_user_turns_only :
    (∀ (pre post : List Msg) (m : Msg), m.role ≠ "user" →
        gemini_history_text (pre ++ m :: post) =
          gemini_history_text (pre ++ post)) ∧
      gemini_history_text
          [Msg.mk "user" (.str "A"), Msg.mk "assistant" (.str "B"),
            Msg.mk "user" (.str "C")] = "A\nC" := by
  constructor
  · intro pre post m hm
    simp [gemini_history_text, List.filter_append, List.filter_cons, hm]
  · rfl

/-- Witness for C5: dropping a concrete assistant turn and the concrete
    scenario. -/
theorem gemini_prompt_user_turns_only_witness :
    gemini_history_text
        [Msg.mk "user" (.str "A"), Msg.mk "assistant" (.str "B")] =
      gemini_history_text [Msg.mk "user" (.str "A")] ∧
      gemini_history_text
          [Msg.mk "user" (.str "A"), Msg.mk "assistant" (.str "B"),
            Msg.mk "user" (.str "C")] = "A\nC" :=
  ⟨gemini_prompt_user_turns_only.1 [Msg.mk "user" (.str "A")] []
      (Msg.mk "assistant" (.str "B")) (by decide),
    gemini_prompt_user_turns_only.2⟩

/-- C6 counterexample: the Claude translation of a history whose message
    carries an image block is identical to the translation of the same
    history without the image block, and is just the flattened text, so
    the image is dropped with no signal of any kind. -/
theorem claude_image_dropped_silently :
    claude_history_format
        [Msg.mk "user" (.blocks [.text "hi", .image "http://x" "high"])] =
      claude_history_format [Msg.mk "user" (.blocks [.text "hi"])] ∧
      claude_history_format
          [Msg.mk "user" (.blocks [.text "hi", .image "http://x" "high"])] =
        [ClaudeMsg.mk "user" "hi"] := by
  constructor <;> rfl

theorem filter_text_eq_filterMap (bs : List ContentBlock) :
    (bs.filter ContentBlock.hasTextKey).map ContentBlock.textVal =
      bs.filterMap (fun b =>
        match b with
        | ContentBlock.text s => some s
        | ContentBlock.image _ _ => none) := by
  induction bs with
  | nil => rfl
  | cons b t ih =>
      cases b <;>
        simp [List.filter_cons, List.filterMap_cons, ContentBlock.hasTextKey,
          ContentBlock.textVal, ih]

/-- C6 amended: the Claude request translation flattens each message by
    newline-joining exactly its Text block contents, image blocks
    contributing nothing, and it emits no signal whatsoever. -/
theorem claude_format_flattens (hist : List Msg) :
    claude_history_format hist = claudeSpecFlatten hist := by
  simp only [claude_history_format, claudeSpecFlatten]
  apply List.map_congr_left
  intro m _
  cases hc : m.content with
  | str s => simp [claude_text, hc]
  | blocks bs =>
      simp only [claude_text, hc, ClaudeMsg.mk.injEq, true_and]
      rw [filter_text_eq_filterMap]

/-- A concrete prompt large enough that even the rough length-over-4
    estimate exceeds the 128000 budget. -/
def bigPrompt : String := String.mk (List.replicate 600000 'a')

theorem bigPrompt_length : bigPrompt.length = 600000 := by
  show (List.replicate 600000 'a').length = 600000
  exact List.length_replicate 600000 'a'

theorem bigPrompt_ne_empty : bigPrompt ≠ "" := by
  intro h
  have h2 := bigPrompt_length
  rw [h] at h2
  simp at h2

/-- C7 counterexample: under the claude provider, a single-message request
    whose estimate exceeds 128000 tokens is still dispatched by chat; the
    size check exists only in the openai branch. -/
theorem chat_claude_no_size_check :
    128000 < num_tokens_from_messages (fun s => s.length) "claude"
        [Msg.mk "user" (.str bigPrompt)] ∧
      (chat (fun s => s.length)
          (EngineState.mk "claude" "claude-3-opus-20240229" true [])
          bigPrompt).2 =
        .dispatchedClaude [Msg.mk "user" (.str bigPrompt)] := by
  constructor
  · have hr : pyMsgRepr (Msg.mk "user" (.str bigPrompt)) =
        "\x7b\x27role\x27: \x27" ++ "user" ++ "\x27, \x27content\x27: " ++
          ("\x27" ++ bigPrompt ++ "\x27") ++ "\x7d" := rfl
    have hl : (pyMsgRepr (Msg.mk "user" (.str bigPrompt))).length = 600031 := by
      rw [hr]
      simp only [String.length_append, bigPrompt_length]
      decide
    unfold num_tokens_from_messages
    rw [if_neg (by decide)]
    simp only [List.map_cons, List.map_nil, List.sum_cons, List.sum_nil, hl]
    decide
  · unfold chat
    rw [if_neg bigPrompt_ne_empty, if_neg (by decide), if_pos (by decide),
      if_neg (by decide)]

/-- C7 amended: only the openai branch of chat rejects an oversized
    single-message request before dispatch; under the claude and gemini
    providers the request is dispatched with no size check at all. -/
theorem chat_size_check_openai_only :
    (∀ (enc : String → Nat) (st : EngineState) (prompt : String),
        st.provider = "openai" → st.clientOk = true → prompt ≠ "" →
        128000 < num_tokens_from_messages enc st.provider
            [Msg.mk "user" (.str prompt)] →
        (chat enc st prompt).2 = .promptTooLarge) ∧
      (∀ (enc : String → Nat) (st : EngineState) (prompt : String),
        st.provider = "claude" → st.clientOk = true → prompt ≠ "" →
        (chat enc st prompt).2 =
          .dispatchedClaude [Msg.mk "user" (.str prompt)]) ∧
      (∀ (enc : String → Nat) (st : EngineState) (prompt : String),
        st.provider = "gemini" → st.clientOk = true → prompt ≠ "" →
        (chat enc st prompt).2 = .dispatchedGemini prompt) := by
  refine ⟨?_, ?_, ?_⟩
  · intro enc st prompt hprov hok hne hbig
    unfold chat
    rw [if_neg hne, if_pos hprov, if_neg (by rw [hok]; decide), if_pos hbig]
  · intro enc st prompt hprov hok hne
    unfold chat
    rw [if_neg hne, hprov]
    rw [if_neg (by decide), if_pos rfl, if_neg (by rw [hok]; decide)]
  · intro enc st prompt hprov hok hne
    unfold chat
    rw [if_neg hne, hprov]
    rw [if_neg (by decide), if_neg (by decide), if_pos rfl,
      if_neg (by rw [hok]; decide)]

/-- Witness for the amended C7 at concrete states: an oversized openai
    question is rejected, while a claude question is dispatched. -/
theorem chat_size_check_openai_only_witness :
    (chat (fun _ => 1000000) (EngineState.mk "openai" "gpt-4o" true [])
        "hi").2 = .promptTooLarge ∧
      (chat (fun _ => 1000000)
          (EngineState.mk "claude" "claude-3-opus-20240229" true [])
          "hi").2 = .dispatchedClaude [Msg.mk "user" (.str "hi")] :=
  ⟨chat_size_check_openai_only.1 (fun _ => 1000000)
      (EngineState.mk "openai" "gpt-4o" true []) "hi" rfl rfl (by decide)
      (by decide),
    chat_size_check_openai_only.2.1 (fun _ => 1000000)
      (EngineState.mk "claude" "claude-3-opus-20240229" true []) "hi" rfl rfl
      (by decide)⟩

/-- C8: chat never mutates the engine state, in particular the
    conversation history, and an empty prompt is a no-op that returns
    without error and dispatches nothing. -/
theorem chat_no_history_effect (enc : String → Nat) (st : EngineState)
    (prompt : String) :
    (chat enc st prompt).1 = st ∧ chat enc st "" = (st, .noInput) := by
  constructor
  · unfold chat
    repeat' split
    all_goals rfl
  · unfold chat
    rw [if_pos rfl]

/-- C9: switching to a recognized provider succeeds, re-creates the
    client, updates the provider and its default model, and leaves the
    conversation history exactly as it was. -/
theorem set_provider_preserves_history (avail : String → Bool)
    (st : EngineState) (p : String) (model : Option String)
    (hp : p = "openai" ∨ p = "claude" ∨ p = "gemini") :
    (set_provider avail st p model).2 = none ∧
      (set_provider avail st p model).1.chat_history = st.chat_history ∧
      (set_provider avail st p model).1.provider = p ∧
      (set_provider avail st p model).1.clientOk = avail p ∧
      (model = none →
        (set_provider avail st p model).1.model =
          (default_model_for_provider p).getD "") := by
  rcases hp with h | h | h <;> subst h <;> rcases model with _ | m
  case' inl.some | inr.inl.some | inr.inr.some => by_cases hm : m = ""
  all_goals
    simp_all [set_provider, init_client, default_model_for_provider]

/-- Witness for C9: switching a concrete openai engine with a nonempty
    history to claude. -/
theorem set_provider_preserves_history_witness :
    (set_provider (fun _ => true)
        (EngineState.mk "openai" "gpt-4o" true [Msg.mk "user" (.str "hi")])
        "claude" none).2 = none ∧
      (set_provider (fun _ => true)
          (EngineState.mk "openai" "gpt-4o" true [Msg.mk "user" (.str "hi")])
          "claude" none).1.chat_history =
        (EngineState.mk "openai" "gpt-4o" true
          [Msg.mk "user" (.str "hi")]).chat_history ∧
      (set_provider (fun _ => true)
          (EngineState.mk "openai" "gpt-4o" true [Msg.mk "user" (.str "hi")])
          "claude" none).1.provider = "claude" ∧
      (set_provider (fun _ => true)
          (EngineState.mk "openai" "gpt-4o" true [Msg.mk "user" (.str "hi")])
          "claude" none).1.clientOk = (fun _ => true) "claude" ∧
      ((none : Option String) = none →
        (set_provider (fun _ => true)
            (EngineState.mk "openai" "gpt-4o" true [Msg.mk "user" (.str "hi")])
            "claude" none).1.model =
          (default_model_for_provider "claude").getD "") :=
  set_provider_preserves_history (fun _ => true)
    (EngineState.mk "openai" "gpt-4o" true [Msg.mk "user" (.str "hi")])
    "claude" none (Or.inr (Or.inl rfl))

/-- C10 counterexample: switching a concrete openai engine to the
    unrecognized provider bogus raises the error, yet the provider field
    has already been overwritten with bogus, so the configuration is not
    left as it was before the call. -/
theorem set_provider_unknown_keeps_mutation :
    (set_provider (fun _ => true)
        (EngineState.mk "openai" "gpt-4o" true []) "bogus" none).2 =
      some PyErr.unknownProvider ∧
      (set_provider (fun _ => true)
          (EngineState.mk "openai" "gpt-4o" true []) "bogus" none).1.provider =
        "bogus" ∧
      (EngineState.mk "openai" "gpt-4o" true []).provider = "openai" :=
  ⟨rfl, rfl, rfl⟩

/-- C10 amended: any unrecognized provider makes construction fail with
    the unknown-provider error (no engine is produced) and makes
    set_provider raise the same error, but set_provider has already
    overwritten the provider field with the unrecognized name when it
    raises. -/
theorem unknown_provider_always_fails (avail : String → Bool)
    (sp : Option Msg) (st : EngineState) (p : String) (model : Option String)
    (h1 : p ≠ "openai") (h2 : p ≠ "claude") (h3 : p ≠ "gemini") :
    mkLLMManager avail sp p model = .error .unknownProvider ∧
      (set_provider avail st p model).2 = some .unknownProvider ∧
      (set_provider avail st p model).1.provider = p := by
  rcases model with _ | m
  · simp [mkLLMManager, set_provider, init_client, default_model_for_provider,
      h1, h2, h3]
  · by_cases hm : m = "" <;>
      simp [mkLLMManager, set_provider, init_client,
        default_model_for_provider, h1, h2, h3, hm]

/-- Witness for the amended C10 at a concrete unrecognized provider. -/
theorem unknown_provider_always_fails_witness :
    mkLLMManager (fun _ => true) none "mistral" none =
        .error .unknownProvider ∧
      (set_provider (fun _ => true)
          (EngineState.mk "gemini" "gemini-1.5-pro" true []) "mistral"
          none).2 = some .unknownProvider ∧
      (set_provider (fun _ => true)
          (EngineState.mk "gemini" "gemini-1.5-pro" true []) "mistral"
          none).1.provider = "mistral" :=
  unknown_provider_always_fails (fun _ => true) none
    (EngineState.mk "gemini" "gemini-1.5-pro" true []) "mistral" none
    (by decide) (by decide) (by decide)

end LLMChat
